import Mathlib

/-!
# Shift cash-reconciliation engine: a shallow embedding

A Lean model of the core accounting logic of `src/app.py` (a multi-shift
retail cash-accounting application backed by a record store).  The store is
modelled as an in-memory database `DB` holding the record collections the
code queries (`shifts`, `expense_heads`, `expenses`, `vendor_payments`,
`purchases`, `withdrawals`, `returns`, `owner_ledger`, `vendors`).  Monetary
amounts are modelled as `Int` (the claims under study do not hinge on
fractional values).  Store reads are modelled as pure list queries; the
code's `safe_supabase_call` error path for the four per-kind reads inside
`calculate_expected_cash` is modelled explicitly by `QueryErrs` flags.
-/

/-- A row of the `shifts` collection.  `opening_cash` and `total_sale` are
always set at insert time (the code's `or 0` guards are identities on
integers), so they are plain `Int`; `expected_cash`, `closing_cash_entered`
and `closed_at` are nullable.  Dates and timestamps are day/tick indices
(`Nat`): ISO-8601 strings compare exactly like these indices. -/
structure Shift where
  id : Nat
  date : Nat
  shift_name : String
  opening_cash : Int
  total_sale : Int
  expected_cash : Option Int
  closing_cash_entered : Option Int
  status : String
  closed_at : Option Nat
deriving Repr, DecidableEq

/-- A row of `expense_heads`. -/
structure ExpenseHead where
  id : Nat
  name : String
  description : String
deriving Repr, DecidableEq

/-- A row of `expenses`. -/
structure Expense where
  shift_id : Nat
  expense_head_id : Nat
  amount : Int
  source : String
  description : String
deriving Repr, DecidableEq

/-- A row of `vendors`. -/
structure Vendor where
  id : Nat
  name : String
  opening_balance : Int
deriving Repr, DecidableEq

/-- A row of `vendor_payments`. -/
structure VendorPayment where
  shift_id : Nat
  vendor_id : Nat
  amount : Int
  source : String
  description : String
  created_at : Nat
deriving Repr, DecidableEq

/-- A row of `purchases`.  `source_if_cash` is set only for cash purchases. -/
structure Purchase where
  shift_id : Nat
  vendor_id : Nat
  amount : Int
  payment_type : String
  source_if_cash : Option String
  description : String
  created_at : Nat
deriving Repr, DecidableEq

/-- A row of `returns`. -/
structure VendorReturn where
  shift_id : Nat
  vendor_id : Nat
  amount : Int
  description : String
  created_at : Nat
deriving Repr, DecidableEq

/-- A row of `withdrawals`. -/
structure Withdrawal where
  shift_id : Nat
  amount : Int
  description : String
deriving Repr, DecidableEq

/-- A row of `owner_ledger`. -/
structure OwnerLedgerEntry where
  transaction_date : Nat
  amount : Int
  description : String
  shift_id : Option Nat
deriving Repr, DecidableEq

/-- The record store.  `next_id` models the store's id assignment for
inserted shifts; `now` models the current clock reading used for
`closed_at` and `transaction_date`. -/
structure DB where
  shifts : List Shift
  expense_heads : List ExpenseHead
  expenses : List Expense
  vendor_payments : List VendorPayment
  purchases : List Purchase
  withdrawals : List Withdrawal
  returns : List VendorReturn
  owner_ledger : List OwnerLedgerEntry
  vendors : List Vendor
  next_id : Nat
  now : Nat
deriving Repr, DecidableEq

/-- `eq("id", shift_id)` followed by `data[0]`: the first shift with the
given id, if any. -/
def getShift (db : DB) (shift_id : Nat) : Option Shift :=
  db.shifts.find? (fun s => s.id == shift_id)

/-- Sum of the amounts of the expenses of a shift whose source is
`sales_cash` (the query on line 190-193 of `app.py`). -/
def salesCashExpenseTotal (db : DB) (shift_id : Nat) : Int :=
  ((db.expenses.filter (fun e => e.shift_id == shift_id && e.source == "sales_cash")).map
    Expense.amount).sum

/-- Sum of the amounts of the vendor payments of a shift whose source is
`sales_cash` (lines 196-199). -/
def salesCashPaymentTotal (db : DB) (shift_id : Nat) : Int :=
  ((db.vendor_payments.filter
      (fun p => p.shift_id == shift_id && p.source == "sales_cash")).map
    VendorPayment.amount).sum

/-- Sum of the amounts of the purchases of a shift with payment type `cash`
and cash source `sales_cash` (lines 202-206). -/
def salesCashPurchaseTotal (db : DB) (shift_id : Nat) : Int :=
  ((db.purchases.filter
      (fun p => p.shift_id == shift_id && p.payment_type == "cash"
        && p.source_if_cash == some "sales_cash")).map
    Purchase.amount).sum

/-- Sum of the amounts of all withdrawals of a shift (lines 209-212). -/
def withdrawalTotal (db : DB) (shift_id : Nat) : Int :=
  ((db.withdrawals.filter (fun w => w.shift_id == shift_id)).map
    Withdrawal.amount).sum

/-- Error flags for the four per-kind store reads inside
`calculate_expected_cash` (each `safe_supabase_call` may fail). -/
structure QueryErrs where
  exp : Bool
  pay : Bool
  pur : Bool
  wd : Bool
deriving Repr, DecidableEq

/-- `calculate_expected_cash` (lines 180-215) with the per-kind query error
flags explicit.  On a missing shift the code surfaces an error and returns
the sentinel `0`.  Each per-kind total is `sum(...) if not err and data
else 0`: an empty result contributes `0` either way, so an erroring read is
modelled by zeroing that total. -/
def calculate_expected_cash_errs (db : DB) (shift_id : Nat) (errs : QueryErrs) : Int :=
  match getShift db shift_id with
  | none => 0
  | some shift =>
    let opening := shift.opening_cash
    let sale := shift.total_sale
    let total_exp := if errs.exp then 0 else salesCashExpenseTotal db shift_id
    let total_pay := if errs.pay then 0 else salesCashPaymentTotal db shift_id
    let total_pur := if errs.pur then 0 else salesCashPurchaseTotal db shift_id
    let total_wd := if errs.wd then 0 else withdrawalTotal db shift_id
    opening + sale - (total_exp + total_pay + total_pur + total_wd)

/-- `calculate_expected_cash` on a healthy store: no read errors. -/
def calculate_expected_cash (db : DB) (shift_id : Nat) : Int :=
  calculate_expected_cash_errs db shift_id ⟨false, false, false, false⟩

/-- Update the shift with the given id in place (`update ... eq("id", ...)`). -/
def updateShift (db : DB) (shift_id : Nat) (f : Shift → Shift) : DB :=
  { db with shifts := db.shifts.map (fun s => if s.id == shift_id then f s else s) }

/-- `update_expected_cash` (lines 217-223): recompute and persist. -/
def update_expected_cash (db : DB) (shift_id : Nat) : DB :=
  let expected := calculate_expected_cash db shift_id
  updateShift db shift_id (fun s => { s with expected_cash := some expected })

/-- `eq("name", name)` on `expense_heads` followed by `data[0]`. -/
def findExpenseHead (db : DB) (name : String) : Option ExpenseHead :=
  db.expense_heads.find? (fun h => h.name == name)

/-- The expected figure `close_shift` reconciles against (line 231):
`shift.get('expected_cash') or calculate_expected_cash(shift_id)`.
Python's `or` falls through both on a missing value and on a stored `0`. -/
def closeExpected (db : DB) (shift_id : Nat) (shift : Shift) : Int :=
  match shift.expected_cash with
  | none => calculate_expected_cash db shift_id
  | some e => if e == 0 then calculate_expected_cash db shift_id else e

/-- The final persistence step of `close_shift` (lines 258-264). -/
def closeUpdate (db : DB) (shift_id : Nat) (closing_cash : Int) : DB :=
  updateShift db shift_id (fun s =>
    { s with closing_cash_entered := some closing_cash, status := "closed",
             closed_at := some db.now })

/-- `close_shift` (lines 225-266).  A missing shift, or a missing
"Cash Shortage" head when a shortage must be recorded, aborts with the
store unchanged. -/
def close_shift (db : DB) (shift_id : Nat) (closing_cash : Int) : DB :=
  match getShift db shift_id with
  | none => db
  | some shift =>
    let expected := closeExpected db shift_id shift
    if closing_cash < expected then
      match findExpenseHead db "Cash Shortage" with
      | none => db
      | some head =>
        let db1 := { db with expenses := db.expenses ++
          [{ shift_id := shift_id, expense_head_id := head.id,
             amount := expected - closing_cash, source := "sales_cash",
             description := "Auto-recorded cash shortage" }] }
        let db2 := update_expected_cash db1 shift_id
        closeUpdate db2 shift_id closing_cash
    else
      closeUpdate db shift_id closing_cash

/-- `record_owner_ledger` (lines 268-278): append an owner-ledger entry
stamped with the current clock. -/
def record_owner_ledger (db : DB) (amount : Int) (description : String)
    (shift_id : Option Nat) : DB :=
  { db with owner_ledger := db.owner_ledger ++
      [{ transaction_date := db.now, amount := amount,
         description := description, shift_id := shift_id }] }

/-- The withdrawal-form handler (lines 631-645): insert the withdrawal,
record `-amount` in the owner ledger, recompute expected cash. -/
def add_withdrawal (db : DB) (shift_id : Nat) (amount : Int)
    (description : String) : DB :=
  let db1 := { db with withdrawals := db.withdrawals ++
      [{ shift_id := shift_id, amount := amount, description := description }] }
  let db2 := record_owner_ledger db1 (-amount) ("Withdrawal: " ++ description)
      (some shift_id)
  update_expected_cash db2 shift_id

/-- Stable insertion into a list sorted by the Boolean relation `le`:
an element passes over strictly smaller heads and lands before equals. -/
def sortedInsert (le : α → α → Bool) (x : α) : List α → List α
  | [] => [x]
  | y :: ys => if le x y then x :: y :: ys else y :: sortedInsert le x ys

/-- Stable insertion sort by the Boolean relation `le`; models the store's
`order(...)` and pandas' `sort_values` on the keys the code sorts by. -/
def stableSortBy (le : α → α → Bool) : List α → List α
  | [] => []
  | x :: xs => sortedInsert le x (stableSortBy le xs)

/-- Python's `a or b` on a nullable number: falls through both when the
value is absent and when it is `0`. -/
def orTruthy (a : Option Int) (dflt : Int) : Int :=
  match a with
  | none => dflt
  | some x => if x == 0 then dflt else x

/-- Lexicographic (code-point) order on character lists: the order string
comparison uses in Python and in the store's `lt`/`order` on text columns. -/
def charListLt : List Char → List Char → Bool
  | [], [] => false
  | [], _ :: _ => true
  | _ :: _, [] => false
  | a :: as, b :: bs => if a < b then true else if b < a then false else charListLt as bs

/-- Lexicographic order on strings. -/
def strLt (a b : String) : Bool :=
  charListLt a.data b.data

/-- The "previous shift" query of `get_or_create_shift` (lines 152-158):
same date, `shift_name` strictly before the requested one in string order,
ordered by `shift_name` ascending. -/
def prevShiftsSorted (db : DB) (d : Nat) (shift_name : String) : List Shift :=
  stableSortBy (fun a b => !strLt b.shift_name a.shift_name)
    (db.shifts.filter (fun s => s.date == d && strLt s.shift_name shift_name))

/-- `get_or_create_shift` (lines 137-178).  Returns the updated store and
the id of the existing or newly inserted shift. -/
def get_or_create_shift (db : DB) (d : Nat) (shift_name : String) : DB × Nat :=
  match db.shifts.find? (fun s => s.date == d && s.shift_name == shift_name) with
  | some s => (db, s.id)
  | none =>
    let prev := prevShiftsSorted db d shift_name
    let opening :=
      match prev.getLast? with
      | none => 0
      | some last => orTruthy last.expected_cash (orTruthy last.closing_cash_entered 0)
    let newShift : Shift :=
      { id := db.next_id, date := d, shift_name := shift_name,
        opening_cash := opening, total_sale := 0, expected_cash := none,
        closing_cash_entered := none, status := "open", closed_at := none }
    ({ db with shifts := db.shifts ++ [newShift], next_id := db.next_id + 1 },
     db.next_id)

/-- A display row of the Vendor Ledger report. -/
structure LedgerRow where
  date : Nat
  txn_type : String
  debit : Int
  credit : Int
  balance : Int
  mode : String
  description : String
deriving Repr, DecidableEq

/-- The purchase loop of the Vendor Ledger report (lines 931-953): credit
purchases raise the balance, cash purchases emit an informational
zero-debit zero-credit row. -/
def purchaseRows (bal : Int) : List Purchase → List LedgerRow × Int
  | [] => ([], bal)
  | p :: ps =>
    if p.payment_type == "credit" then
      let bal' := bal + p.amount
      let rest := purchaseRows bal' ps
      ({ date := p.created_at, txn_type := "Purchase", debit := p.amount,
         credit := 0, balance := bal', mode := "Credit",
         description := p.description } :: rest.1, rest.2)
    else
      let rest := purchaseRows bal ps
      ({ date := p.created_at, txn_type := "Purchase", debit := 0, credit := 0,
         balance := bal, mode := "Cash",
         description := p.description ++ " (cash)" } :: rest.1, rest.2)

/-- The payment loop of the Vendor Ledger report (lines 954-965). -/
def paymentRows (bal : Int) : List VendorPayment → List LedgerRow × Int
  | [] => ([], bal)
  | p :: ps =>
    let bal' := bal - p.amount
    let rest := paymentRows bal' ps
    ({ date := p.created_at, txn_type := "Payment", debit := 0,
       credit := p.amount, balance := bal',
       mode := if p.source == "sales_cash" then "Cash" else "Owner Pocket",
       description := p.description } :: rest.1, rest.2)

/-- The return loop of the Vendor Ledger report (lines 966-976). -/
def returnRows (bal : Int) : List VendorReturn → List LedgerRow × Int
  | [] => ([], bal)
  | r :: rs =>
    let bal' := bal - r.amount
    let rest := returnRows bal' rs
    ({ date := r.created_at, txn_type := "Return", debit := 0,
       credit := r.amount, balance := bal', mode := "N/A",
       description := r.description } :: rest.1, rest.2)

/-- The Vendor Ledger report body (lines 919-979): opening row, then the
three kind-grouped loops threading one running balance, then
`sort_values('Date')` on the finished rows.  Returns the displayed rows and
the final balance.  (The display sort is modelled as stable; the
counterexamples below use distinct dates so tie order is irrelevant.)
The opening row (lines 922-930): -/
def openingRow (start_date : Nat) (opening : Int) : LedgerRow :=
  { date := start_date, txn_type := "Opening", debit := 0, credit := 0,
    balance := opening, mode := "", description := "Opening Balance" }

def build_vendor_ledger (opening : Int) (start_date : Nat) (ps : List Purchase)
    (pays : List VendorPayment) (rets : List VendorReturn) :
    List LedgerRow × Int :=
  let pr := purchaseRows opening ps
  let payr := paymentRows pr.2 pays
  let retr := returnRows payr.2 rets
  (stableSortBy (fun a b => decide (a.date ≤ b.date))
     (openingRow start_date opening :: (pr.1 ++ payr.1 ++ retr.1)), retr.2)

/-- The Vendor Ledger report entry point: look up the vendor's opening
balance (lines 890-896) and fetch the three in-range transaction lists for
that vendor (lines 898-918). -/
def vendor_ledger_report (db : DB) (vendor_id : Nat)
    (start_date end_date : Nat) : Option (List LedgerRow × Int) :=
  match db.vendors.find? (fun v => v.id == vendor_id) with
  | none => none
  | some v =>
    let ps := db.purchases.filter (fun p => p.vendor_id == vendor_id
      && decide (start_date ≤ p.created_at) && decide (p.created_at ≤ end_date))
    let pays := db.vendor_payments.filter (fun p => p.vendor_id == vendor_id
      && decide (start_date ≤ p.created_at) && decide (p.created_at ≤ end_date))
    let rets := db.returns.filter (fun r => r.vendor_id == vendor_id
      && decide (start_date ≤ r.created_at) && decide (r.created_at ≤ end_date))
    some (build_vendor_ledger v.opening_balance start_date ps pays rets)

/-- A vendor transaction of any of the three kinds, for stating how the
report's balances relate to a single merged transaction sequence. -/
inductive VTxn where
  | pur (p : Purchase)
  | pay (p : VendorPayment)
  | ret (r : VendorReturn)
deriving Repr, DecidableEq

/-- Timestamp of a vendor transaction. -/
def vtxnDate : VTxn → Nat
  | .pur p => p.created_at
  | .pay p => p.created_at
  | .ret r => r.created_at

/-- The ledger row a single transaction emits at a given balance, and the
balance after it — exactly the row shapes of the three report loops. -/
def vtxnStep (bal : Int) : VTxn → LedgerRow × Int
  | .pur p =>
    if p.payment_type == "credit" then
      ({ date := p.created_at, txn_type := "Purchase", debit := p.amount,
         credit := 0, balance := bal + p.amount, mode := "Credit",
         description := p.description }, bal + p.amount)
    else
      ({ date := p.created_at, txn_type := "Purchase", debit := 0, credit := 0,
         balance := bal, mode := "Cash",
         description := p.description ++ " (cash)" }, bal)
  | .pay p =>
    ({ date := p.created_at, txn_type := "Payment", debit := 0,
       credit := p.amount, balance := bal - p.amount,
       mode := if p.source == "sales_cash" then "Cash" else "Owner Pocket",
       description := p.description }, bal - p.amount)
  | .ret r =>
    ({ date := r.created_at, txn_type := "Return", debit := 0,
       credit := r.amount, balance := bal - r.amount, mode := "N/A",
       description := r.description }, bal - r.amount)

/-- Fold a merged transaction sequence into ledger rows, threading the
running balance. -/
def vtxnRows (bal : Int) : List VTxn → List LedgerRow × Int
  | [] => ([], bal)
  | t :: ts =>
    let s := vtxnStep bal t
    let rest := vtxnRows s.2 ts
    (s.1 :: rest.1, rest.2)

/-- The ledger the specification describes, stated in the spec's own words:
merge the three transaction kinds, sort by timestamp ascending (stable for
ties), and fold the running balance over that chronological sequence. -/
def chronoVendorLedger (opening : Int) (start_date : Nat) (txns : List VTxn) :
    List LedgerRow × Int :=
  let r := vtxnRows opening (stableSortBy (fun a b => decide (vtxnDate a ≤ vtxnDate b)) txns)
  (openingRow start_date opening :: r.1, r.2)

/-- A display row of the Owner Transactions report (the report also derives
a `type` tag and `|amount|` from the signed amount; the claims under study
concern the running balance, kept here along with the raw amount). -/
structure OwnerRow where
  transaction_date : Nat
  amount : Int
  running_balance : Int
deriving Repr, DecidableEq

/-- The `cumsum` of the Owner Transactions report: each row carries the
sum of all amounts up to and including it. -/
def ownerRows (acc : Int) : List OwnerLedgerEntry → List OwnerRow
  | [] => []
  | e :: es =>
    { transaction_date := e.transaction_date, amount := e.amount,
      running_balance := acc + e.amount } :: ownerRows (acc + e.amount) es

/-- The Owner Transactions report (lines 823-839): fetch in-range entries
ordered by `transaction_date` ascending (`ownerEntriesInRange`) and attach
the cumulative sum. -/
def ownerEntriesInRange (db : DB) (start_date end_date : Nat) :
    List OwnerLedgerEntry :=
  stableSortBy (fun a b => decide (a.transaction_date ≤ b.transaction_date))
    (db.owner_ledger.filter (fun e => decide (start_date ≤ e.transaction_date)
      && decide (e.transaction_date ≤ end_date)))

def owner_transactions_report (db : DB) (start_date end_date : Nat) :
    List OwnerRow :=
  ownerRows 0 (ownerEntriesInRange db start_date end_date)

/-! ## Shared lemmas -/

/-- On a found shift, `calculate_expected_cash` is exactly the reconciliation
formula over the four per-kind totals. -/
theorem calc_expected_eq (db : DB) (sid : Nat) (s : Shift)
    (h : getShift db sid = some s) :
    calculate_expected_cash db sid =
      s.opening_cash + s.total_sale -
        (salesCashExpenseTotal db sid + salesCashPaymentTotal db sid +
         salesCashPurchaseTotal db sid + withdrawalTotal db sid) := by
  simp [calculate_expected_cash, calculate_expected_cash_errs, h]

/-! ## C1 -/

/-- Example store: one open Morning shift with a 200 sales-cash expense and
a 300 owner-pocket expense (the spec's §8 scenario). -/
def exShiftC1 : Shift :=
  { id := 1, date := 1, shift_name := "Morning", opening_cash := 0,
    total_sale := 5000, expected_cash := none, closing_cash_entered := none,
    status := "open", closed_at := none }

/-- Store for the C1/C10 witnesses. -/
def exDbC1 : DB :=
  { shifts := [exShiftC1], expense_heads := [],
    expenses := [{ shift_id := 1, expense_head_id := 1, amount := 200,
                   source := "sales_cash", description := "tea" },
                 { shift_id := 1, expense_head_id := 1, amount := 300,
                   source := "owner_pocket", description := "fuel" }],
    vendor_payments := [], purchases := [], withdrawals := [], returns := [],
    owner_ledger := [], vendors := [], next_id := 2, now := 0 }

/-- C1: for every existing shift, `calculate_expected_cash` returns
`opening_cash + total_sale` minus the sum of the shift's sales-cash
expenses, sales-cash vendor payments, cash purchases sourced from sales
cash, and all withdrawals; appending an owner-pocket expense, an
owner-pocket vendor payment, a credit purchase or an owner-pocket cash
purchase leaves the result unchanged. -/
theorem calculate_expected_cash_spec (db : DB) (sid : Nat) (s : Shift)
    (h : getShift db sid = some s) :
    calculate_expected_cash db sid =
      s.opening_cash + s.total_sale -
        (salesCashExpenseTotal db sid + salesCashPaymentTotal db sid +
         salesCashPurchaseTotal db sid + withdrawalTotal db sid) ∧
    (∀ e : Expense, e.source = "owner_pocket" →
      calculate_expected_cash { db with expenses := db.expenses ++ [e] } sid =
        calculate_expected_cash db sid) ∧
    (∀ p : VendorPayment, p.source = "owner_pocket" →
      calculate_expected_cash { db with vendor_payments := db.vendor_payments ++ [p] } sid =
        calculate_expected_cash db sid) ∧
    (∀ p : Purchase, p.payment_type = "credit" ∨ p.source_if_cash = some "owner_pocket" →
      calculate_expected_cash { db with purchases := db.purchases ++ [p] } sid =
        calculate_expected_cash db sid) := by
  refine ⟨calc_expected_eq db sid s h, ?_, ?_, ?_⟩
  · intro e he
    have h2 : getShift { db with expenses := db.expenses ++ [e] } sid = some s := h
    have hexp : salesCashExpenseTotal { db with expenses := db.expenses ++ [e] } sid =
        salesCashExpenseTotal db sid := by
      simp [salesCashExpenseTotal, List.filter_append, he]
    rw [calc_expected_eq _ sid s h2, calc_expected_eq db sid s h, hexp]
    rfl
  · intro p hp
    have h2 : getShift { db with vendor_payments := db.vendor_payments ++ [p] } sid = some s := h
    have hpay : salesCashPaymentTotal { db with vendor_payments := db.vendor_payments ++ [p] } sid =
        salesCashPaymentTotal db sid := by
      simp [salesCashPaymentTotal, List.filter_append, hp]
    rw [calc_expected_eq _ sid s h2, calc_expected_eq db sid s h, hpay]
    rfl
  · intro p hp
    have h2 : getShift { db with purchases := db.purchases ++ [p] } sid = some s := h
    have hpur : salesCashPurchaseTotal { db with purchases := db.purchases ++ [p] } sid =
        salesCashPurchaseTotal db sid := by
      rcases hp with hp | hp <;> simp [salesCashPurchaseTotal, List.filter_append, hp]
    rw [calc_expected_eq _ sid s h2, calc_expected_eq db sid s h, hpur]
    rfl

/-- C1 witness: the spec's §8 scenario evaluates to 4800 through the
formula. -/
theorem calculate_expected_cash_spec_witness :
    getShift exDbC1 1 = some exShiftC1 ∧
    calculate_expected_cash exDbC1 1 =
      exShiftC1.opening_cash + exShiftC1.total_sale -
        (salesCashExpenseTotal exDbC1 1 + salesCashPaymentTotal exDbC1 1 +
         salesCashPurchaseTotal exDbC1 1 + withdrawalTotal exDbC1 1) ∧
    calculate_expected_cash exDbC1 1 = 4800 :=
  ⟨by decide, (calculate_expected_cash_spec exDbC1 1 exShiftC1 (by decide)).1,
   by decide⟩

/-! ## C10 -/

/-- C10: with any combination of failing per-kind store reads,
`calculate_expected_cash` still returns a value: each failing kind's total
is silently taken as `0`; with every read failing the result is
`opening_cash + total_sale`, so when the true outflow totals are
non-negative the returned figure is at least the true formula value. -/
theorem calculate_expected_cash_errs_silent (db : DB) (sid : Nat) (s : Shift)
    (errs : QueryErrs) (h : getShift db sid = some s) :
    calculate_expected_cash_errs db sid errs =
      s.opening_cash + s.total_sale -
        ((if errs.exp then 0 else salesCashExpenseTotal db sid) +
         (if errs.pay then 0 else salesCashPaymentTotal db sid) +
         (if errs.pur then 0 else salesCashPurchaseTotal db sid) +
         (if errs.wd then 0 else withdrawalTotal db sid)) ∧
    calculate_expected_cash_errs db sid ⟨true, true, true, true⟩ =
      s.opening_cash + s.total_sale ∧
    (0 ≤ salesCashExpenseTotal db sid → 0 ≤ salesCashPaymentTotal db sid →
     0 ≤ salesCashPurchaseTotal db sid → 0 ≤ withdrawalTotal db sid →
     calculate_expected_cash db sid ≤
       calculate_expected_cash_errs db sid ⟨true, true, true, true⟩) := by
  refine ⟨by simp [calculate_expected_cash_errs, h], ?_, ?_⟩
  · simp [calculate_expected_cash_errs, h]
  · intro h1 h2 h3 h4
    rw [calc_expected_eq db sid s h]
    simp [calculate_expected_cash_errs, h]
    omega

/-- C10 witness: on the C1 store with the expense read failing, the
function returns 5000 while the true formula value is 4800. -/
theorem calculate_expected_cash_errs_silent_witness :
    getShift exDbC1 1 = some exShiftC1 ∧
    calculate_expected_cash_errs exDbC1 1 ⟨true, true, true, true⟩ =
      exShiftC1.opening_cash + exShiftC1.total_sale ∧
    calculate_expected_cash_errs exDbC1 1 ⟨true, false, false, false⟩ = 5000 ∧
    calculate_expected_cash exDbC1 1 = 4800 :=
  ⟨by decide,
   (calculate_expected_cash_errs_silent exDbC1 1 exShiftC1 ⟨true, false, false, false⟩
      (by decide)).2.1,
   by decide, by decide⟩

/-! ## C4 -/

/-- Store with no shift whatsoever, for the C4 witness. -/
def exDbC4 : DB :=
  { shifts := [], expense_heads := [], expenses := [], vendor_payments := [],
    purchases := [], withdrawals := [], returns := [], owner_ledger := [],
    vendors := [], next_id := 1, now := 0 }

/-- C4: on a shift id with no matching shift, `close_shift` leaves the
store completely unchanged, and `calculate_expected_cash` (with or without
read errors) takes its error branch and returns the sentinel `0` — no
zero-value shift is fabricated and no formula is evaluated. -/
theorem missing_shift_fatal (db : DB) (sid : Nat) (closing : Int)
    (h : getShift db sid = none) :
    close_shift db sid closing = db ∧
    calculate_expected_cash db sid = 0 ∧
    (∀ errs : QueryErrs, calculate_expected_cash_errs db sid errs = 0) := by
  refine ⟨?_, ?_, ?_⟩
  · simp [close_shift, h]
  · simp [calculate_expected_cash, calculate_expected_cash_errs, h]
  · intro errs
    simp [calculate_expected_cash_errs, h]

/-- C4 witness: the empty store has no shift 7; closing it changes nothing
and the calculator returns the sentinel. -/
theorem missing_shift_fatal_witness :
    getShift exDbC4 7 = none ∧
    close_shift exDbC4 7 100 = exDbC4 ∧
    calculate_expected_cash exDbC4 7 = 0 ∧
    calculate_expected_cash_errs exDbC4 7 ⟨true, false, true, false⟩ = 0 :=
  ⟨by decide, (missing_shift_fatal exDbC4 7 100 (by decide)).1,
   (missing_shift_fatal exDbC4 7 100 (by decide)).2.1,
   (missing_shift_fatal exDbC4 7 100 (by decide)).2.2 ⟨true, false, true, false⟩⟩

/-! ## Lemmas about shift updates and `close_shift` -/

/-- Updating the shift with a given id rewrites exactly the found record,
provided the update preserves the id. -/
theorem find?_update_list (l : List Shift) (sid : Nat) (f : Shift → Shift)
    (hf : ∀ t, (f t).id = t.id) :
    (l.map (fun s => if s.id == sid then f s else s)).find? (fun s => s.id == sid) =
      (l.find? (fun s => s.id == sid)).map f := by
  induction l with
  | nil => rfl
  | cons a l ih =>
    simp only [List.map_cons]
    by_cases ha : (a.id == sid) = true
    · have hfa : ((f a).id == sid) = true := by rw [hf a]; exact ha
      have h1 : List.find? (fun s => s.id == sid)
          (f a :: List.map (fun s => if s.id == sid then f s else s) l) = some (f a) :=
        List.find?_cons_of_pos _ hfa
      have h2 : List.find? (fun s => s.id == sid) (a :: l) = some a :=
        List.find?_cons_of_pos _ ha
      rw [show (if a.id == sid then f a else a) = f a from if_pos ha, h1, h2]
      rfl
    · have h1 : List.find? (fun s => s.id == sid)
          (a :: List.map (fun s => if s.id == sid then f s else s) l) =
          List.find? (fun s => s.id == sid)
            (List.map (fun s => if s.id == sid then f s else s) l) :=
        List.find?_cons_of_neg _ ha
      have h2 : List.find? (fun s => s.id == sid) (a :: l) =
          List.find? (fun s => s.id == sid) l :=
        List.find?_cons_of_neg _ ha
      rw [show (if a.id == sid then f a else a) = a from if_neg ha, h1, h2]
      exact ih

/-- `getShift` after `updateShift` on the same id. -/
theorem getShift_updateShift (db : DB) (sid : Nat) (f : Shift → Shift)
    (hf : ∀ t, (f t).id = t.id) :
    getShift (updateShift db sid f) sid = (getShift db sid).map f :=
  find?_update_list db.shifts sid f hf

/-- Under the stored-value/recompute synchrony assumption, the figure
`close_shift` reconciles against is the freshly computed one in every
branch of the Python `or`. -/
theorem closeExpected_sync (db : DB) (sid : Nat) (s : Shift)
    (hsync : s.expected_cash = none ∨
      s.expected_cash = some (calculate_expected_cash db sid)) :
    closeExpected db sid s = calculate_expected_cash db sid := by
  rcases hsync with h | h <;> simp [closeExpected, h]

/-- Appending an expense that matches the shift and the `sales_cash` filter
adds its amount to the expense total. -/
theorem salesCashExpenseTotal_append (db : DB) (sid : Nat) (e : Expense)
    (h1 : e.shift_id = sid) (h2 : e.source = "sales_cash") :
    salesCashExpenseTotal { db with expenses := db.expenses ++ [e] } sid =
      salesCashExpenseTotal db sid + e.amount := by
  simp [salesCashExpenseTotal, List.filter_append, h1, h2]

/-- Appending a matching `sales_cash` expense lowers the recomputed expected
cash by its amount. -/
theorem calc_expected_append_expense (db : DB) (sid : Nat) (s : Shift) (e : Expense)
    (hs : getShift db sid = some s) (h1 : e.shift_id = sid)
    (h2 : e.source = "sales_cash") :
    calculate_expected_cash { db with expenses := db.expenses ++ [e] } sid =
      calculate_expected_cash db sid - e.amount := by
  have hs2 : getShift { db with expenses := db.expenses ++ [e] } sid = some s := hs
  rw [calc_expected_eq _ sid s hs2, calc_expected_eq db sid s hs,
    salesCashExpenseTotal_append db sid e h1 h2]
  have hpay : salesCashPaymentTotal { db with expenses := db.expenses ++ [e] } sid =
      salesCashPaymentTotal db sid := rfl
  have hpur : salesCashPurchaseTotal { db with expenses := db.expenses ++ [e] } sid =
      salesCashPurchaseTotal db sid := rfl
  have hwd : withdrawalTotal { db with expenses := db.expenses ++ [e] } sid =
      withdrawalTotal db sid := rfl
  rw [hpay, hpur, hwd]
  ring

/-- `getShift` after the closing persistence step. -/
theorem getShift_closeUpdate (db : DB) (sid : Nat) (c : Int) :
    getShift (closeUpdate db sid c) sid = (getShift db sid).map
      (fun s => { s with closing_cash_entered := some c, status := "closed",
                         closed_at := some db.now }) :=
  getShift_updateShift db sid _ (fun _ => rfl)

/-- `getShift` after `update_expected_cash`. -/
theorem getShift_update_expected (db : DB) (sid : Nat) :
    getShift (update_expected_cash db sid) sid = (getShift db sid).map
      (fun s => { s with expected_cash := some (calculate_expected_cash db sid) }) :=
  getShift_updateShift db sid _ (fun _ => rfl)

/-- The shortage branch of `close_shift`, after the shortage expense has
been inserted: recompute, persist, close. -/
theorem getShift_close_branch (db1 : DB) (sid : Nat) (s : Shift) (closing : Int)
    (hs1 : getShift db1 sid = some s)
    (hc : calculate_expected_cash db1 sid = closing) :
    getShift (closeUpdate (update_expected_cash db1 sid) sid closing) sid =
      some { s with expected_cash := some closing,
                    closing_cash_entered := some closing,
                    status := "closed", closed_at := some db1.now } := by
  rw [getShift_closeUpdate, getShift_update_expected, hs1, hc]
  rfl

/-! ## C2 -/

/-- C2: on a store whose persisted `expected_cash` (when present) agrees
with the recomputed value, `close_shift` inserts a shortage expense exactly
when `closing_cash < expected`: in that case exactly one new expense
appears, against the "Cash Shortage" head, of amount `expected − closing`
and source `sales_cash`, and the shift's recomputed-and-persisted
`expected_cash` then equals `closing_cash`; when `closing_cash ≥ expected`
the expense collection is untouched and the shift keeps its stored
`expected_cash`. -/
theorem close_shift_shortage_spec (db : DB) (sid : Nat) (s : Shift)
    (closing : Int) (head : ExpenseHead)
    (hs : getShift db sid = some s)
    (hsync : s.expected_cash = none ∨
      s.expected_cash = some (calculate_expected_cash db sid))
    (hhead : findExpenseHead db "Cash Shortage" = some head) :
    (closing < calculate_expected_cash db sid →
      (close_shift db sid closing).expenses = db.expenses ++
        [{ shift_id := sid, expense_head_id := head.id,
           amount := calculate_expected_cash db sid - closing,
           source := "sales_cash",
           description := "Auto-recorded cash shortage" }] ∧
      getShift (close_shift db sid closing) sid =
        some { s with expected_cash := some closing,
                      closing_cash_entered := some closing,
                      status := "closed", closed_at := some db.now }) ∧
    (calculate_expected_cash db sid ≤ closing →
      (close_shift db sid closing).expenses = db.expenses ∧
      getShift (close_shift db sid closing) sid =
        some { s with closing_cash_entered := some closing,
                      status := "closed", closed_at := some db.now }) := by
  have hE := closeExpected_sync db sid s hsync
  constructor
  · intro hlt
    have hcalc1 : calculate_expected_cash
        { db with expenses := db.expenses ++
          [{ shift_id := sid, expense_head_id := head.id,
             amount := calculate_expected_cash db sid - closing,
             source := "sales_cash",
             description := "Auto-recorded cash shortage" }] } sid = closing := by
      rw [calc_expected_append_expense db sid s _ hs rfl rfl]
      ring
    constructor
    · simp only [close_shift, hs, hE, hhead, if_pos hlt]
      rfl
    · simp only [close_shift, hs, hE, hhead, if_pos hlt]
      exact getShift_close_branch _ sid s closing hs hcalc1
  · intro hge
    constructor
    · simp only [close_shift, hs, hE, if_neg (not_lt.mpr hge)]
      rfl
    · simp only [close_shift, hs, hE, if_neg (not_lt.mpr hge)]
      rw [getShift_closeUpdate, hs]
      rfl

/-- Open shift with persisted expected cash 100 in sync with the store, for
the C2 witness. -/
def exShiftC2 : Shift :=
  { id := 2, date := 1, shift_name := "Evening", opening_cash := 100,
    total_sale := 0, expected_cash := some 100, closing_cash_entered := none,
    status := "open", closed_at := none }

/-- The reserved shortage head, for the C2 witness. -/
def exHeadC2 : ExpenseHead :=
  { id := 7, name := "Cash Shortage", description := "reserved" }

/-- Store for the C2 witness. -/
def exDbC2 : DB :=
  { shifts := [exShiftC2], expense_heads := [exHeadC2], expenses := [],
    vendor_payments := [], purchases := [], withdrawals := [], returns := [],
    owner_ledger := [], vendors := [], next_id := 3, now := 5 }

/-- C2 witness: closing at 70 against an expected 100 inserts the single
30-rupee shortage expense and persists `expected_cash = 70`. -/
theorem close_shift_shortage_spec_witness :
    getShift exDbC2 2 = some exShiftC2 ∧
    (70 : Int) < calculate_expected_cash exDbC2 2 ∧
    (close_shift exDbC2 2 70).expenses = exDbC2.expenses ++
      [{ shift_id := 2, expense_head_id := exHeadC2.id,
         amount := calculate_expected_cash exDbC2 2 - 70,
         source := "sales_cash",
         description := "Auto-recorded cash shortage" }] ∧
    getShift (close_shift exDbC2 2 70) 2 =
      some { exShiftC2 with expected_cash := some 70,
                            closing_cash_entered := some 70,
                            status := "closed", closed_at := some exDbC2.now } :=
  ⟨by decide, by decide,
   ((close_shift_shortage_spec exDbC2 2 exShiftC2 70 exHeadC2 (by decide)
      (by decide) (by decide)).1 (by decide)).1,
   ((close_shift_shortage_spec exDbC2 2 exShiftC2 70 exHeadC2 (by decide)
      (by decide) (by decide)).1 (by decide)).2⟩

/-! ## C3 -/

/-- C3: when a shortage must be recorded (`closing < expected`) and no
expense head named exactly "Cash Shortage" exists, `close_shift` aborts
with the store completely unchanged: no expense is inserted, the closing
figure is not persisted, and the shift stays exactly as it was. -/
theorem close_shift_missing_head_aborts (db : DB) (sid : Nat) (s : Shift)
    (closing : Int) (hs : getShift db sid = some s)
    (hhead : findExpenseHead db "Cash Shortage" = none)
    (hlt : closing < closeExpected db sid s) :
    close_shift db sid closing = db := by
  simp [close_shift, hs, hlt, hhead]

/-- Open shift for the C3 witness (no expense heads exist in its store). -/
def exShiftC3 : Shift :=
  { id := 3, date := 2, shift_name := "Morning", opening_cash := 100,
    total_sale := 0, expected_cash := some 100, closing_cash_entered := none,
    status := "open", closed_at := none }

/-- Store with no "Cash Shortage" head, for the C3 witness. -/
def exDbC3 : DB :=
  { shifts := [exShiftC3], expense_heads := [], expenses := [],
    vendor_payments := [], purchases := [], withdrawals := [], returns := [],
    owner_ledger := [], vendors := [], next_id := 4, now := 0 }

/-- C3 witness: closing at 40 against an expected 100 with no shortage head
leaves the store untouched. -/
theorem close_shift_missing_head_aborts_witness :
    getShift exDbC3 3 = some exShiftC3 ∧
    findExpenseHead exDbC3 "Cash Shortage" = none ∧
    (40 : Int) < closeExpected exDbC3 3 exShiftC3 ∧
    close_shift exDbC3 3 40 = exDbC3 :=
  ⟨by decide, by decide, by decide,
   close_shift_missing_head_aborts exDbC3 3 exShiftC3 40 (by decide) (by decide)
     (by decide)⟩

/-! ## C5 -/

/-- The carried-forward opening figure stated as an explicit case tree:
the previous shift's `expected_cash` when present and nonzero, else its
`closing_cash_entered` when present and nonzero, else 0. -/
def carriedOpening (expected closing : Option Int) : Int :=
  match expected with
  | some e =>
    if e ≠ 0 then e
    else match closing with
         | some c => if c ≠ 0 then c else 0
         | none => 0
  | none =>
    match closing with
    | some c => if c ≠ 0 then c else 0
    | none => 0

/-- The code's `a or b or 0` chain computes exactly the nonzero-fallthrough
case tree. -/
theorem orTruthy_carried (a b : Option Int) :
    orTruthy a (orTruthy b 0) = carriedOpening a b := by
  rcases a with _ | e <;> rcases b with _ | c
  · rfl
  · by_cases hc : c = 0 <;> simp [orTruthy, carriedOpening, hc]
  · by_cases he : e = 0 <;> simp [orTruthy, carriedOpening, he]
  · by_cases he : e = 0 <;> by_cases hc : c = 0 <;>
      simp [orTruthy, carriedOpening, he, hc]

/-- C5 amended: a freshly created shift's `opening_cash` is the latest
preceding same-date shift's `expected_cash` when present **and nonzero**,
else its `closing_cash_entered` when present and nonzero, else 0; with no
preceding shift it is 0.  (The Python `or` chain treats a stored 0 as
absent.) -/
theorem get_or_create_shift_opening_spec (db : DB) (d : Nat) (name : String)
    (hnew : db.shifts.find? (fun s => s.date == d && s.shift_name == name) = none) :
    (∀ last, (prevShiftsSorted db d name).getLast? = some last →
      ((get_or_create_shift db d name).1.shifts.getLast?).map Shift.opening_cash =
        some (carriedOpening last.expected_cash last.closing_cash_entered)) ∧
    ((prevShiftsSorted db d name).getLast? = none →
      ((get_or_create_shift db d name).1.shifts.getLast?).map Shift.opening_cash =
        some 0) := by
  constructor
  · intro last hlast
    simp only [get_or_create_shift, hnew, hlast, List.getLast?_concat]
    rw [show Option.map Shift.opening_cash (some
      { id := db.next_id, date := d, shift_name := name,
        opening_cash := orTruthy last.expected_cash (orTruthy last.closing_cash_entered 0),
        total_sale := 0, expected_cash := none, closing_cash_entered := none,
        status := "open", closed_at := none }) =
      some (orTruthy last.expected_cash (orTruthy last.closing_cash_entered 0)) from rfl]
    rw [orTruthy_carried]
  · intro hlast
    simp only [get_or_create_shift, hnew, hlast, List.getLast?_concat]
    rfl

/-- Closed same-date Morning shift whose `expected_cash` is present and
equal to 0 while `closing_cash_entered` is 500. -/
def exShiftC5 : Shift :=
  { id := 10, date := 5, shift_name := "Morning", opening_cash := 0,
    total_sale := 0, expected_cash := some 0, closing_cash_entered := some 500,
    status := "closed", closed_at := some 9 }

/-- Store for the C5 counterexample and witness. -/
def exDbC5 : DB :=
  { shifts := [exShiftC5], expense_heads := [], expenses := [],
    vendor_payments := [], purchases := [], withdrawals := [], returns := [],
    owner_ledger := [], vendors := [], next_id := 11, now := 20 }

/-- C5 counterexample: the preceding shift's `expected_cash` is present and
equals 0, yet the created shift opens with 500 (the claim requires 0). -/
theorem get_or_create_shift_zero_expected_cex :
    exShiftC5.expected_cash = some 0 ∧
    ((get_or_create_shift exDbC5 5 "Night").1.shifts.getLast?).map Shift.opening_cash =
      some 500 ∧
    ((get_or_create_shift exDbC5 5 "Night").1.shifts.getLast?).map Shift.opening_cash ≠
      some 0 := by
  decide

/-- C5 witness: the nonzero-fallthrough case tree evaluates to 500 on the
counterexample store. -/
theorem get_or_create_shift_opening_spec_witness :
    exDbC5.shifts.find? (fun s => s.date == 5 && s.shift_name == "Night") = none ∧
    (prevShiftsSorted exDbC5 5 "Night").getLast? = some exShiftC5 ∧
    ((get_or_create_shift exDbC5 5 "Night").1.shifts.getLast?).map Shift.opening_cash =
      some (carriedOpening exShiftC5.expected_cash exShiftC5.closing_cash_entered) ∧
    carriedOpening exShiftC5.expected_cash exShiftC5.closing_cash_entered = 500 :=
  ⟨by decide, by decide,
   (get_or_create_shift_opening_spec exDbC5 5 "Night" (by decide)).1 exShiftC5
     (by decide),
   by decide⟩

/-! ## C6 -/

/-- Closed same-date Morning shift carrying 700, for the C6 store. -/
def exShiftC6 : Shift :=
  { id := 20, date := 3, shift_name := "Morning", opening_cash := 0,
    total_sale := 700, expected_cash := some 700, closing_cash_entered := some 700,
    status := "closed", closed_at := some 2 }

/-- Store holding only the Morning shift of date 3. -/
def exDbC6 : DB :=
  { shifts := [exShiftC6], expense_heads := [], expenses := [],
    vendor_payments := [], purchases := [], withdrawals := [], returns := [],
    owner_ledger := [], vendors := [], next_id := 21, now := 30 }

/-- Closed same-date Evening shift carrying 444, for the C6 store. -/
def exShiftC6e : Shift :=
  { id := 21, date := 3, shift_name := "Evening", opening_cash := 0,
    total_sale := 444, expected_cash := some 444, closing_cash_entered := some 444,
    status := "closed", closed_at := some 2 }

/-- Store holding only the Evening shift of date 3. -/
def exDbC6e : DB :=
  { shifts := [exShiftC6e], expense_heads := [], expenses := [],
    vendor_payments := [], purchases := [], withdrawals := [], returns := [],
    owner_ledger := [], vendors := [], next_id := 22, now := 30 }

/-- C6 counterexample: an Evening shift created after a same-date Morning
shift holding 700 opens with 0, not 700 — "Morning" does not sort before
"Evening" in the string order the lookup uses. -/
theorem shift_order_morning_evening_cex :
    exShiftC6.expected_cash = some 700 ∧
    ((get_or_create_shift exDbC6 3 "Evening").1.shifts.getLast?).map Shift.opening_cash =
      some 0 ∧
    ((get_or_create_shift exDbC6 3 "Evening").1.shifts.getLast?).map Shift.opening_cash ≠
      some 700 := by
  decide

/-- C6 amended: the "previous shift" lookup orders shift names
lexicographically (`strLt`), under which Evening < Morning < Night.  A Night shift
after a Morning shift carries the Morning cash, a Morning shift after an
Evening shift carries the Evening cash, but an Evening shift after a
Morning shift finds no predecessor and opens with 0. -/
theorem shift_order_lexicographic :
    (strLt "Evening" "Morning" = true ∧ strLt "Morning" "Night" = true ∧
     strLt "Morning" "Evening" = false) ∧
    prevShiftsSorted exDbC6 3 "Evening" = [] ∧
    prevShiftsSorted exDbC6 3 "Night" = [exShiftC6] ∧
    ((get_or_create_shift exDbC6 3 "Night").1.shifts.getLast?).map Shift.opening_cash =
      some 700 ∧
    ((get_or_create_shift exDbC6e 3 "Morning").1.shifts.getLast?).map Shift.opening_cash =
      some 444 := by
  decide

/-! ## Vendor-ledger lemmas -/

/-- Sum of the amounts of the credit purchases in a list. -/
def creditPurchaseTotal (ps : List Purchase) : Int :=
  ((ps.filter (fun p => p.payment_type == "credit")).map Purchase.amount).sum

/-- Sum of the amounts of a payment list. -/
def paymentTotal (pays : List VendorPayment) : Int :=
  (pays.map VendorPayment.amount).sum

/-- Sum of the amounts of a return list. -/
def returnTotal (rets : List VendorReturn) : Int :=
  (rets.map VendorReturn.amount).sum

/-- The purchase loop ends at the start balance plus the credit purchases;
cash purchases contribute nothing. -/
theorem purchaseRows_snd (bal : Int) (ps : List Purchase) :
    (purchaseRows bal ps).2 = bal + creditPurchaseTotal ps := by
  induction ps generalizing bal with
  | nil => simp [purchaseRows, creditPurchaseTotal]
  | cons p ps ih =>
    by_cases h : (p.payment_type == "credit") = true
    · simp [purchaseRows, h, ih, creditPurchaseTotal, List.filter_cons]
      ring
    · simp [purchaseRows, h, ih, creditPurchaseTotal, List.filter_cons]

/-- The payment loop subtracts the payment total. -/
theorem paymentRows_snd (bal : Int) (pays : List VendorPayment) :
    (paymentRows bal pays).2 = bal - paymentTotal pays := by
  induction pays generalizing bal with
  | nil => simp [paymentRows, paymentTotal]
  | cons p ps ih =>
    simp only [paymentRows, ih, paymentTotal, List.map_cons, List.sum_cons]
    ring

/-- The return loop subtracts the return total. -/
theorem returnRows_snd (bal : Int) (rets : List VendorReturn) :
    (returnRows bal rets).2 = bal - returnTotal rets := by
  induction rets generalizing bal with
  | nil => simp [returnRows, returnTotal]
  | cons r rs ih =>
    simp only [returnRows, ih, returnTotal, List.map_cons, List.sum_cons]
    ring

/-- Stable insertion is a permutation of consing. -/
theorem sortedInsert_perm (le : α → α → Bool) (x : α) (l : List α) :
    (sortedInsert le x l).Perm (x :: l) := by
  induction l with
  | nil => simp [sortedInsert]
  | cons y ys ih =>
    by_cases h : le x y = true
    · simp [sortedInsert, h]
    · simp only [sortedInsert, if_neg h]
      exact (ih.cons y).trans (List.Perm.swap x y ys)

/-- The stable sort is a permutation of its input. -/
theorem stableSortBy_perm (le : α → α → Bool) (l : List α) :
    (stableSortBy le l).Perm l := by
  induction l with
  | nil => simp [stableSortBy]
  | cons x xs ih => exact (sortedInsert_perm le x _).trans (ih.cons x)

/-- Every purchase-loop row tagged "Cash" carries zero debit and credit. -/
theorem purchaseRows_cash_zero (bal : Int) (ps : List Purchase) :
    ∀ r ∈ (purchaseRows bal ps).1, r.mode = "Cash" → r.debit = 0 ∧ r.credit = 0 := by
  induction ps generalizing bal with
  | nil => intro r hr; simp [purchaseRows] at hr
  | cons p ps ih =>
    intro r hr hmode
    by_cases h : (p.payment_type == "credit") = true
    · simp only [purchaseRows, if_pos h, List.mem_cons] at hr
      rcases hr with hr | hr
      · subst hr; simp at hmode
      · exact ih _ r hr hmode
    · simp only [purchaseRows, if_neg h, List.mem_cons] at hr
      rcases hr with hr | hr
      · subst hr; exact ⟨rfl, rfl⟩
      · exact ih _ r hr hmode

/-- Every payment-loop row is typed "Payment". -/
theorem paymentRows_type (bal : Int) (pays : List VendorPayment) :
    ∀ r ∈ (paymentRows bal pays).1, r.txn_type = "Payment" := by
  induction pays generalizing bal with
  | nil => intro r hr; simp [paymentRows] at hr
  | cons p ps ih =>
    intro r hr
    simp only [paymentRows, List.mem_cons] at hr
    rcases hr with hr | hr
    · subst hr; rfl
    · exact ih _ r hr

/-- Every return-loop row is typed "Return". -/
theorem returnRows_type (bal : Int) (rets : List VendorReturn) :
    ∀ r ∈ (returnRows bal rets).1, r.txn_type = "Return" := by
  induction rets generalizing bal with
  | nil => intro r hr; simp [returnRows] at hr
  | cons p ps ih =>
    intro r hr
    simp only [returnRows, List.mem_cons] at hr
    rcases hr with hr | hr
    · subst hr; rfl
    · exact ih _ r hr

/-! ## C7 -/

/-- C7: a vendor ledger's final balance is
`opening + Σ credit purchases − Σ payments − Σ returns`; deleting every
cash purchase leaves the final balance unchanged; and every "Cash"-tagged
purchase row shows zero debit and zero credit. -/
theorem vendor_ledger_balance_spec (opening : Int) (start : Nat)
    (ps : List Purchase) (pays : List VendorPayment) (rets : List VendorReturn) :
    (build_vendor_ledger opening start ps pays rets).2 =
      opening + creditPurchaseTotal ps - paymentTotal pays - returnTotal rets ∧
    (build_vendor_ledger opening start
        (ps.filter (fun p => p.payment_type == "credit")) pays rets).2 =
      (build_vendor_ledger opening start ps pays rets).2 ∧
    (∀ r ∈ (build_vendor_ledger opening start ps pays rets).1,
      r.txn_type = "Purchase" → r.mode = "Cash" → r.debit = 0 ∧ r.credit = 0) := by
  have hsnd : ∀ ps' : List Purchase,
      (build_vendor_ledger opening start ps' pays rets).2 =
        opening + creditPurchaseTotal ps' - paymentTotal pays - returnTotal rets := by
    intro ps'
    simp only [build_vendor_ledger]
    rw [purchaseRows_snd, paymentRows_snd, returnRows_snd]
  refine ⟨hsnd ps, ?_, ?_⟩
  · rw [hsnd, hsnd]
    have hf : creditPurchaseTotal (ps.filter (fun p => p.payment_type == "credit")) =
        creditPurchaseTotal ps := by
      simp [creditPurchaseTotal, List.filter_filter]
    rw [hf]
  · intro r hr htype hmode
    have hr' : r ∈ openingRow start opening ::
        ((purchaseRows opening ps).1 ++
         (paymentRows (purchaseRows opening ps).2 pays).1 ++
         (returnRows (paymentRows (purchaseRows opening ps).2 pays).2 rets).1) := by
      have hperm := stableSortBy_perm (fun a b => decide (a.date ≤ b.date))
        (openingRow start opening ::
          ((purchaseRows opening ps).1 ++
           (paymentRows (purchaseRows opening ps).2 pays).1 ++
           (returnRows (paymentRows (purchaseRows opening ps).2 pays).2 rets).1))
      exact hperm.mem_iff.mp hr
    rcases List.mem_cons.mp hr' with hr0 | hr1
    · subst hr0; simp [openingRow] at htype
    · rcases List.mem_append.mp hr1 with hr2 | hret
      · rcases List.mem_append.mp hr2 with hpur | hpay
        · exact purchaseRows_cash_zero _ _ r hpur hmode
        · rw [paymentRows_type _ _ r hpay] at htype
          exact absurd htype (by decide)
      · rw [returnRows_type _ _ r hret] at htype
        exact absurd htype (by decide)

/-- Purchases for the C7 witness: one credit purchase of 500 on day 1 and
one cash purchase of 300 on day 4 (the spec's §8 vendor scenario). -/
def exPsC7 : List Purchase :=
  [{ shift_id := 1, vendor_id := 1, amount := 500, payment_type := "credit",
     source_if_cash := none, description := "stock", created_at := 1 },
   { shift_id := 1, vendor_id := 1, amount := 300, payment_type := "cash",
     source_if_cash := some "sales_cash", description := "meds", created_at := 4 }]

/-- Payments for the C7 witness: 200 on day 2. -/
def exPaysC7 : List VendorPayment :=
  [{ shift_id := 1, vendor_id := 1, amount := 200, source := "sales_cash",
     description := "part", created_at := 2 }]

/-- Returns for the C7 witness: 100 on day 3. -/
def exRetsC7 : List VendorReturn :=
  [{ shift_id := 1, vendor_id := 1, amount := 100, description := "expired",
     created_at := 3 }]

/-- The informational row the day-4 cash purchase emits. -/
def exCashRowC7 : LedgerRow :=
  { date := 4, txn_type := "Purchase", debit := 0, credit := 0,
    balance := 1500, mode := "Cash", description := "meds (cash)" }

/-- C7 witness: the spec scenario ends at 1200 and the cash purchase's row
carries zero debit and credit. -/
theorem vendor_ledger_balance_spec_witness :
    (build_vendor_ledger 1000 0 exPsC7 exPaysC7 exRetsC7).2 =
      1000 + creditPurchaseTotal exPsC7 - paymentTotal exPaysC7 -
        returnTotal exRetsC7 ∧
    (build_vendor_ledger 1000 0 exPsC7 exPaysC7 exRetsC7).2 = 1200 ∧
    exCashRowC7 ∈ (build_vendor_ledger 1000 0 exPsC7 exPaysC7 exRetsC7).1 ∧
    exCashRowC7.txn_type = "Purchase" ∧ exCashRowC7.mode = "Cash" ∧
    exCashRowC7.debit = 0 ∧ exCashRowC7.credit = 0 :=
  ⟨(vendor_ledger_balance_spec 1000 0 exPsC7 exPaysC7 exRetsC7).1,
   by decide, by decide, rfl, rfl,
   ((vendor_ledger_balance_spec 1000 0 exPsC7 exPaysC7 exRetsC7).2.2
      exCashRowC7 (by decide) rfl rfl).1,
   ((vendor_ledger_balance_spec 1000 0 exPsC7 exPaysC7 exRetsC7).2.2
      exCashRowC7 (by decide) rfl rfl).2⟩

/-! ## C8 -/

/-- The signed balance effect of a single vendor transaction. -/
def vtxnNet : VTxn → Int
  | .pur p => if p.payment_type == "credit" then p.amount else 0
  | .pay p => -p.amount
  | .ret r => -r.amount

/-- One transaction step moves the balance by its net effect. -/
theorem vtxnStep_snd (bal : Int) (t : VTxn) :
    (vtxnStep bal t).2 = bal + vtxnNet t := by
  cases t with
  | pur p =>
    by_cases h : (p.payment_type == "credit") = true <;>
      simp [vtxnStep, vtxnNet, h]
  | pay p => simp [vtxnStep, vtxnNet]; ring
  | ret r => simp [vtxnStep, vtxnNet]; ring

/-- The fold's final balance is the start plus the sum of net effects —
independent of the order of the transactions. -/
theorem vtxnRows_snd (bal : Int) (l : List VTxn) :
    (vtxnRows bal l).2 = bal + (l.map vtxnNet).sum := by
  induction l generalizing bal with
  | nil => simp [vtxnRows]
  | cons t ts ih => simp [vtxnRows, ih, vtxnStep_snd]; ring

/-- The unified fold over purchases alone is the purchase loop. -/
theorem vtxnRows_map_pur (bal : Int) (ps : List Purchase) :
    vtxnRows bal (ps.map VTxn.pur) = purchaseRows bal ps := by
  induction ps generalizing bal with
  | nil => rfl
  | cons p ps ih =>
    by_cases h : (p.payment_type == "credit") = true <;>
      simp [vtxnRows, vtxnStep, purchaseRows, h, ih]

/-- The unified fold over payments alone is the payment loop. -/
theorem vtxnRows_map_pay (bal : Int) (pays : List VendorPayment) :
    vtxnRows bal (pays.map VTxn.pay) = paymentRows bal pays := by
  induction pays generalizing bal with
  | nil => rfl
  | cons p ps ih => simp [vtxnRows, vtxnStep, paymentRows, ih]

/-- The unified fold over returns alone is the return loop. -/
theorem vtxnRows_map_ret (bal : Int) (rets : List VendorReturn) :
    vtxnRows bal (rets.map VTxn.ret) = returnRows bal rets := by
  induction rets generalizing bal with
  | nil => rfl
  | cons r rs ih => simp [vtxnRows, vtxnStep, returnRows, ih]

/-- The fold splits over list append, threading the balance. -/
theorem vtxnRows_append (bal : Int) (l1 l2 : List VTxn) :
    vtxnRows bal (l1 ++ l2) =
      ((vtxnRows bal l1).1 ++ (vtxnRows (vtxnRows bal l1).2 l2).1,
       (vtxnRows (vtxnRows bal l1).2 l2).2) := by
  induction l1 generalizing bal with
  | nil => simp [vtxnRows]
  | cons t ts ih => simp [vtxnRows, ih]

/-- C8 amended: the Vendor Ledger report computes running balances by
folding over all purchases, then all payments, then all returns in fetch
order (not merged chronologically), and only afterwards sorts the finished
rows by date for display; the final balance nevertheless agrees with the
chronological fold's final balance, the balance total being
order-independent. -/
theorem build_vendor_ledger_grouped (opening : Int) (start : Nat)
    (ps : List Purchase) (pays : List VendorPayment) (rets : List VendorReturn) :
    build_vendor_ledger opening start ps pays rets =
      (stableSortBy (fun a b => decide (a.date ≤ b.date))
         (openingRow start opening ::
           (vtxnRows opening
             (ps.map VTxn.pur ++ (pays.map VTxn.pay ++ rets.map VTxn.ret))).1),
       (vtxnRows opening
         (ps.map VTxn.pur ++ (pays.map VTxn.pay ++ rets.map VTxn.ret))).2) ∧
    (build_vendor_ledger opening start ps pays rets).2 =
      (chronoVendorLedger opening start
        (ps.map VTxn.pur ++ (pays.map VTxn.pay ++ rets.map VTxn.ret))).2 := by
  have hmain : build_vendor_ledger opening start ps pays rets =
      (stableSortBy (fun a b => decide (a.date ≤ b.date))
         (openingRow start opening ::
           (vtxnRows opening
             (ps.map VTxn.pur ++ (pays.map VTxn.pay ++ rets.map VTxn.ret))).1),
       (vtxnRows opening
         (ps.map VTxn.pur ++ (pays.map VTxn.pay ++ rets.map VTxn.ret))).2) := by
    rw [vtxnRows_append, vtxnRows_map_pur, vtxnRows_append, vtxnRows_map_pay,
      vtxnRows_map_ret]
    simp only [build_vendor_ledger, List.append_assoc]
  refine ⟨hmain, ?_⟩
  have hb : (build_vendor_ledger opening start ps pays rets).2 =
      (vtxnRows opening
        (ps.map VTxn.pur ++ (pays.map VTxn.pay ++ rets.map VTxn.ret))).2 := by
    rw [hmain]
  rw [hb]
  simp only [chronoVendorLedger]
  rw [vtxnRows_snd, vtxnRows_snd]
  have hperm := (stableSortBy_perm (fun a b => decide (vtxnDate a ≤ vtxnDate b))
    (ps.map VTxn.pur ++ (pays.map VTxn.pay ++ rets.map VTxn.ret))).map vtxnNet
  rw [hperm.sum_eq]

/-- Credit purchase of 500 on day 2, for the C8 counterexample. -/
def exPurC8 : Purchase :=
  { shift_id := 1, vendor_id := 1, amount := 500, payment_type := "credit",
    source_if_cash := none, description := "stock", created_at := 2 }

/-- Payment of 200 on day 1, for the C8 counterexample. -/
def exPayC8 : VendorPayment :=
  { shift_id := 1, vendor_id := 1, amount := 200, source := "sales_cash",
    description := "part", created_at := 1 }

/-- C8 counterexample: with a day-1 payment of 200 and a day-2 credit
purchase of 500 on an opening balance of 0, the displayed day-1 row shows
balance 300 (the purchase was folded in first), while the chronological
fold the claim describes puts −200 there. -/
theorem vendor_ledger_chrono_cex :
    ((build_vendor_ledger 0 0 [exPurC8] [exPayC8] []).1[1]?).map
      LedgerRow.balance = some 300 ∧
    ((chronoVendorLedger 0 0 [VTxn.pur exPurC8, VTxn.pay exPayC8]).1[1]?).map
      LedgerRow.balance = some (-200) ∧
    ((300 : Int) ≠ -200) := by
  decide

/-! ## C9 -/

/-- The cumulative-sum rows: the `i`-th row's balance is the accumulator
plus the sum of the first `i+1` entry amounts. -/
theorem ownerRows_balance (acc : Int) (l : List OwnerLedgerEntry) :
    ∀ i r, (ownerRows acc l)[i]? = some r →
      r.running_balance = acc + ((l.take (i + 1)).map OwnerLedgerEntry.amount).sum := by
  induction l generalizing acc with
  | nil => intro i r hr; simp [ownerRows] at hr
  | cons e es ih =>
    intro i r hr
    cases i with
    | zero =>
      simp only [ownerRows, List.getElem?_cons_zero, Option.some.injEq] at hr
      subst hr
      simp
    | succ n =>
      simp only [ownerRows, List.getElem?_cons_succ] at hr
      have := ih (acc + e.amount) n r hr
      simp only [List.take_succ_cons, List.map_cons, List.sum_cons]
      omega

/-- C9: recording a withdrawal of `X` appends exactly one owner-ledger
entry of amount `−X` (alongside the new withdrawal row), and each row of
the Owner Transactions report carries the prefix sum of the in-range
entries' amounts in `transaction_date`-ascending order. -/
theorem owner_withdrawal_spec (db : DB) (sid : Nat) (amt : Int) (desc : String) :
    (add_withdrawal db sid amt desc).owner_ledger =
      db.owner_ledger ++
        [{ transaction_date := db.now, amount := -amt,
           description := "Withdrawal: " ++ desc, shift_id := some sid }] ∧
    (add_withdrawal db sid amt desc).withdrawals =
      db.withdrawals ++
        [{ shift_id := sid, amount := amt, description := desc }] ∧
    (∀ lo hi i r, (owner_transactions_report db lo hi)[i]? = some r →
      r.running_balance =
        (((ownerEntriesInRange db lo hi).take (i + 1)).map
          OwnerLedgerEntry.amount).sum) := by
  refine ⟨rfl, rfl, ?_⟩
  intro lo hi i r hr
  have := ownerRows_balance 0 (ownerEntriesInRange db lo hi) i r hr
  omega

/-- Owner-ledger entries out of date order in store order, plus one shift,
for the C9 witness. -/
def exDbC9 : DB :=
  { shifts := [], expense_heads := [], expenses := [], vendor_payments := [],
    purchases := [], withdrawals := [], returns := [],
    owner_ledger := [{ transaction_date := 3, amount := 10,
                       description := "investment", shift_id := none },
                     { transaction_date := 1, amount := -5,
                       description := "draw", shift_id := some 1 },
                     { transaction_date := 2, amount := 7,
                       description := "top-up", shift_id := none }],
    vendors := [], next_id := 1, now := 4 }

/-- The report row for the day-2 entry: amount 7, running balance −5+7=2. -/
def exRowC9 : OwnerRow :=
  { transaction_date := 2, amount := 7, running_balance := 2 }

/-- C9 witness: the withdrawal appends the single −50 entry, and the second
report row's balance is the prefix sum of the first two sorted amounts. -/
theorem owner_withdrawal_spec_witness :
    (add_withdrawal exDbC9 1 50 "rent").owner_ledger =
      exDbC9.owner_ledger ++
        [{ transaction_date := exDbC9.now, amount := -50,
           description := "Withdrawal: " ++ "rent", shift_id := some 1 }] ∧
    (owner_transactions_report exDbC9 0 10)[1]? = some exRowC9 ∧
    exRowC9.running_balance =
      (((ownerEntriesInRange exDbC9 0 10).take 2).map
        OwnerLedgerEntry.amount).sum ∧
    exRowC9.running_balance = 2 :=
  ⟨(owner_withdrawal_spec exDbC9 1 50 "rent").1, by decide,
   (owner_withdrawal_spec exDbC9 1 50 "rent").2.2 0 10 1 exRowC9 (by decide),
   by decide⟩
